import Mathlib

/-!
Verification of the climate/crop dashboard (`src/tem.py`).

Shallow embedding conventions:
* A data row is a `Row`: `country : String`, `year : Int` (the CSV year is
  integer-like), and the two numeric columns as `Option ℚ` — `none` models a
  missing value (pandas `NaN`), `some v` a present numeric value read exactly.
* Python truthiness guards (`if selected_country:` / `if selected_year:`)
  are translated literally: a filter value is an `Option`, and `some ""`
  (empty string) and `some 0` (year zero) are falsy, exactly as in Python.
* `Series.mean()` is embedded with pandas' default `skipna=True` semantics:
  missing entries are dropped; the mean of an all-missing series is `none`
  (pandas `NaN`).  Comparisons against `NaN` are `False` in Python, which
  `optGt` / `optLe` reproduce.
* Column-name normalization (`df.columns.str.strip().str.replace(" ", "_")
  .str.lower()`) is embedded over lists of Unicode code points (`List Nat`),
  one list per column name, with Python's whitespace set restricted to the
  ASCII whitespace characters and ASCII lowercasing.
-/

namespace TemDashboard

/-- One row of the uploaded table after column normalization, holding the four
required columns.  `temperature_anomaly` / `average_co2` are `none` when the
CSV cell is missing (pandas `NaN`). -/
structure Row where
  country : String
  year : Int
  temperature_anomaly : Option ℚ
  average_co2 : Option ℚ
deriving DecidableEq, Repr

/-- Source `src/tem.py`, lines 56-60:
`filtered_df = df.copy()`;
`if selected_country: filtered_df = filtered_df[filtered_df['country'] == selected_country]`;
`if selected_year: filtered_df = filtered_df[filtered_df['year'] == selected_year]`.
The guards are Python truthiness: `None`, the empty string and the year `0`
skip the corresponding filter. -/
def applyFilters (rows : List Row) (selected_country : Option String)
    (selected_year : Option Int) : List Row :=
  let afterCountry :=
    match selected_country with
    | some c => if c ≠ "" then rows.filter (fun r => r.country == c) else rows
    | none => rows
  match selected_year with
  | some y => if y ≠ 0 then afterCountry.filter (fun r => r.year == y) else afterCountry
  | none => afterCountry

/-- Pandas `Series.mean()` with its default `skipna=True`: missing values are
dropped; an empty or all-missing series yields `none` (pandas returns `NaN`). -/
def seriesMean (xs : List (Option ℚ)) : Option ℚ :=
  let present := xs.filterMap id
  if present.isEmpty then none else some (present.sum / present.length)

/-- Python `x > t` where `x` may be `NaN` (here `none`): `NaN > t` is `False`. -/
def optGt (x : Option ℚ) (t : ℚ) : Bool :=
  match x with
  | some v => decide (t < v)
  | none => false

/-- Python `x <= t` where `x` may be `NaN` (here `none`): `NaN <= t` is `False`. -/
def optLe (x : Option ℚ) (t : ℚ) : Bool :=
  match x with
  | some v => decide (v ≤ t)
  | none => false

/-- Source `src/tem.py`, lines 74-79, the crop suggestion `if`/`elif`/`else` chain,
returning the crop category named in each `st.write` message. -/
def cropSuggestion (predicted_temp predicted_co2 : Option ℚ) : String :=
  if optGt predicted_temp 1.5 && optGt predicted_co2 400 then
    "Wheat, Corn, or Soybeans"
  else if optGt predicted_temp 1.0 && optLe predicted_co2 400 then
    "Rice, Oats, or Barley"
  else
    "Potatoes, Tomatoes, or Lettuce"

/-- Outcome of Part 1 (`src/tem.py` lines 64-81): either the explicit "no
data" warning (line 81), or the displayed pair of means together with the
suggested crop category. -/
inductive RecResult where
  | noData
  | stats (predicted_temp predicted_co2 : Option ℚ) (crop : String)
deriving DecidableEq, Repr

/-- Source `src/tem.py`, lines 64-81: when the filtered table is non-empty, compute
the two column means and the crop suggestion; otherwise emit the warning. -/
def recommend (filtered : List Row) : RecResult :=
  if filtered.isEmpty then
    RecResult.noData
  else
    let predicted_temp := seriesMean (filtered.map (·.temperature_anomaly))
    let predicted_co2 := seriesMean (filtered.map (·.average_co2))
    RecResult.stats predicted_temp predicted_co2 (cropSuggestion predicted_temp predicted_co2)

/-- C1 counterexample: the claim asserts that (temp = 1.5, co2 = 400) yields
the Potatoes category, but the code's second rule (`predicted_temp > 1.0 and
predicted_co2 <= 400`) fires there (1.5 > 1.0 and 400 ≤ 400), so the code
yields the Rice category. -/
theorem cropSuggestion_boundary_counterexample :
    cropSuggestion (some 1.5) (some 400) = "Rice, Oats, or Barley" ∧
    cropSuggestion (some 1.5) (some 400) ≠ "Potatoes, Tomatoes, or Lettuce" := by
  constructor
  · norm_num [cropSuggestion, optGt, optLe]
  · norm_num [cropSuggestion, optGt, optLe]
    decide

/-- C1 (amended): the classifier evaluates the rules in this exact order with
first match winning; (temp = 1.5, co2 = 400) yields the Rice category (not
Potatoes), (1.51, 401) the Wheat category, (1.2, 300) the Rice category,
(0.5, 200) the Potatoes category, and any temp > 1.5 with co2 ≤ 400 lands in
the Rice category, not a dedicated bucket. -/
theorem cropSuggestion_order :
    (∀ t c : ℚ, 1.5 < t → 400 < c →
      cropSuggestion (some t) (some c) = "Wheat, Corn, or Soybeans") ∧
    (∀ t c : ℚ, ¬ (1.5 < t ∧ 400 < c) → 1 < t → c ≤ 400 →
      cropSuggestion (some t) (some c) = "Rice, Oats, or Barley") ∧
    (∀ t c : ℚ, ¬ (1.5 < t ∧ 400 < c) → ¬ (1 < t ∧ c ≤ 400) →
      cropSuggestion (some t) (some c) = "Potatoes, Tomatoes, or Lettuce") ∧
    cropSuggestion (some 1.5) (some 400) = "Rice, Oats, or Barley" ∧
    cropSuggestion (some 1.51) (some 401) = "Wheat, Corn, or Soybeans" ∧
    cropSuggestion (some 1.2) (some 300) = "Rice, Oats, or Barley" ∧
    cropSuggestion (some 0.5) (some 200) = "Potatoes, Tomatoes, or Lettuce" ∧
    (∀ t c : ℚ, 1.5 < t → c ≤ 400 →
      cropSuggestion (some t) (some c) = "Rice, Oats, or Barley") := by
  refine ⟨fun t c h1 h2 => ?_, fun t c h1 h2 h3 => ?_, fun t c h1 h2 => ?_,
    ?_, ?_, ?_, ?_, fun t c h1 h2 => ?_⟩
  · simp [cropSuggestion, optGt, h1, h2]
  · have hc : ¬ (400 : ℚ) < c := not_lt.mpr h3
    have h10 : (1.0 : ℚ) = 1 := by norm_num
    simp [cropSuggestion, optGt, optLe, h10, hc, h2, h3]
  · have h10 : (1.0 : ℚ) = 1 := by norm_num
    simp only [cropSuggestion, optGt, optLe, Bool.and_eq_true, decide_eq_true_eq, h10]
    rw [if_neg h1, if_neg h2]
  · norm_num [cropSuggestion, optGt, optLe]
  · norm_num [cropSuggestion, optGt, optLe]
  · norm_num [cropSuggestion, optGt, optLe]
  · norm_num [cropSuggestion, optGt, optLe]
  · have hc : ¬ (400 : ℚ) < c := not_lt.mpr h2
    have ht : (1 : ℚ) < t := lt_trans (by norm_num) h1
    have h10 : (1.0 : ℚ) = 1 := by norm_num
    simp [cropSuggestion, optGt, optLe, h10, hc, ht, h2]

/-- C1 witness: the amended theorem applied at concrete inputs with each
hypothesis discharged there. -/
theorem cropSuggestion_order_witness :
    cropSuggestion (some 2) (some 350) = "Rice, Oats, or Barley" :=
  cropSuggestion_order.2.2.2.2.2.2.2 2 350 (by norm_num) (by norm_num)

/-- Source `src/tem.py`, line 139:
`map_data = df[df['year'] == selected_year] if selected_year else df`.
The guard is Python truthiness, so a selected year of `0` keeps the full
table. -/
def selectMapRows (rows : List Row) (selected_year : Option Int) : List Row :=
  match selected_year with
  | some y => if y ≠ 0 then rows.filter (fun r => r.year == y) else rows
  | none => rows

/-- Source `src/tem.py`, lines 142-144: attach the `highlight` column,
`"Selected Country"` when the row's country `==` the selected country (a
`None` selection equals no string), else `"Other Countries"`. -/
def addHighlight (rows : List Row) (selected_country : Option String) :
    List (Row × String) :=
  rows.map (fun r =>
    (r, if some r.country = selected_country then "Selected Country"
        else "Other Countries"))

/-- The present (non-missing) values of a series, in order: what pandas keeps
when it skips `NaN`. -/
lemma seriesMean_map_some (ts : List ℚ) (h : ts ≠ []) :
    seriesMean (ts.map some) = some (ts.sum / ts.length) := by
  have hfm : (ts.map some).filterMap id = ts := by
    simp
  simp only [seriesMean, hfm]
  rw [if_neg]
  simp [List.isEmpty_iff, h]

/-- C2: for every non-empty filtered table whose two numeric columns are fully
present (the data model's numeric columns), the recommendation's predicted
temperature is the sum of the `temperature_anomaly` column over exactly the
filtered rows divided by the filtered row count, and likewise for
`average_co2`. -/
theorem recommend_mean (rows : List Row) (sc : Option String) (sy : Option Int)
    (ts cs : List ℚ)
    (hne : applyFilters rows sc sy ≠ [])
    (ht : (applyFilters rows sc sy).map (·.temperature_anomaly) = ts.map some)
    (hc : (applyFilters rows sc sy).map (·.average_co2) = cs.map some) :
    recommend (applyFilters rows sc sy) =
      RecResult.stats
        (some (ts.sum / ((applyFilters rows sc sy).length : ℚ)))
        (some (cs.sum / ((applyFilters rows sc sy).length : ℚ)))
        (cropSuggestion
          (some (ts.sum / ((applyFilters rows sc sy).length : ℚ)))
          (some (cs.sum / ((applyFilters rows sc sy).length : ℚ)))) := by
  set f := applyFilters rows sc sy with hf
  have hlent : ts.length = f.length := by
    have := congrArg List.length ht
    simpa using this.symm
  have hlenc : cs.length = f.length := by
    have := congrArg List.length hc
    simpa using this.symm
  have hts : ts ≠ [] := by
    intro h0
    apply hne
    subst h0
    simpa using congrArg List.length ht
  have hcs : cs ≠ [] := by
    intro h0
    apply hne
    subst h0
    simpa using congrArg List.length hc
  have hfe : f.isEmpty = false := by
    simpa [List.isEmpty_iff] using hne
  simp only [recommend, hfe, Bool.false_eq_true, if_false, ht, hc,
    seriesMean_map_some ts hts, seriesMean_map_some cs hcs, hlent, hlenc]

/-- C2 witness: the theorem applied to a concrete two-row table with both
filters unset. -/
theorem recommend_mean_witness :
    recommend (applyFilters
        [⟨"a", 1, some 1, some 2⟩, ⟨"b", 2, some 3, some 4⟩] none none) =
      RecResult.stats (some 2) (some 3) (cropSuggestion (some 2) (some 3)) := by
  have h := recommend_mean
    [⟨"a", 1, some 1, some 2⟩, ⟨"b", 2, some 3, some 4⟩] none none
    [1, 3] [2, 4] (by decide) rfl rfl
  norm_num [applyFilters] at h
  exact h

/-- C3: an empty filtered table yields the explicit "no data" outcome; no
mean is computed (the `noData` constructor carries no statistics, so no zero
or `NaN` recommendation is emitted). -/
theorem recommend_empty (rows : List Row) (sc : Option String) (sy : Option Int)
    (h : applyFilters rows sc sy = []) :
    recommend (applyFilters rows sc sy) = RecResult.noData ∧
    ∀ t c crop, recommend (applyFilters rows sc sy) ≠ RecResult.stats t c crop := by
  rw [h]
  exact ⟨rfl, fun t c crop => by simp [recommend]⟩

/-- C3 witness: a selection absent from the data produces the "no data"
outcome. -/
theorem recommend_empty_witness :
    recommend (applyFilters [⟨"a", 1, some 1, some 2⟩] (some "b") none) =
      RecResult.noData :=
  (recommend_empty [⟨"a", 1, some 1, some 2⟩] (some "b") none (by decide)).1

/-- C10: the means use pandas' skip-missing semantics — each column's mean is
the sum of that column's present values divided by their count; rows with a
missing value are excluded from that column's mean only, and the
recommendation is still produced (the row and file are not rejected). -/
theorem recommend_skipna (f : List Row)
    (hpt : f.filterMap (·.temperature_anomaly) ≠ [])
    (hpc : f.filterMap (·.average_co2) ≠ []) :
    recommend f =
      RecResult.stats
        (some ((f.filterMap (·.temperature_anomaly)).sum /
          ((f.filterMap (·.temperature_anomaly)).length : ℚ)))
        (some ((f.filterMap (·.average_co2)).sum /
          ((f.filterMap (·.average_co2)).length : ℚ)))
        (cropSuggestion
          (some ((f.filterMap (·.temperature_anomaly)).sum /
            ((f.filterMap (·.temperature_anomaly)).length : ℚ)))
          (some ((f.filterMap (·.average_co2)).sum /
            ((f.filterMap (·.average_co2)).length : ℚ)))) := by
  have hne : f ≠ [] := by
    intro h0
    subst h0
    simp at hpt
  have hfe : f.isEmpty = false := by
    simpa [List.isEmpty_iff] using hne
  have hfmt : (f.map (·.temperature_anomaly)).filterMap id =
      f.filterMap (·.temperature_anomaly) := by
    rw [List.filterMap_map]
    rfl
  have hfmc : (f.map (·.average_co2)).filterMap id =
      f.filterMap (·.average_co2) := by
    rw [List.filterMap_map]
    rfl
  simp only [recommend, hfe, Bool.false_eq_true, if_false, seriesMean, hfmt, hfmc]
  rw [if_neg, if_neg] <;> simp [List.isEmpty_iff, hpt, hpc]

/-- C10 witness: a row with a missing temperature still contributes its CO2
value; the temperature mean is taken over the single present value. -/
theorem recommend_skipna_witness :
    recommend [⟨"a", 1, none, some 10⟩, ⟨"b", 2, some 2, some 20⟩] =
      RecResult.stats (some 2) (some 15) (cropSuggestion (some 2) (some 15)) := by
  have h := recommend_skipna
    [⟨"a", 1, none, some 10⟩, ⟨"b", 2, some 2, some 20⟩] (by decide) (by decide)
  norm_num [List.filterMap_cons] at h
  exact h

/-- Written from the claim's words (not the source), for the refinement
comparison of C4: keep exactly the rows whose set filter columns equal the
selected values by exact equality, in input order. -/
def claimedFilter (rows : List Row) (sc : Option String) (sy : Option Int) :
    List Row :=
  rows.filter (fun r =>
    (match sc with
     | some c => r.country == c
     | none => true) &&
    (match sy with
     | some y => r.year == y
     | none => true))

/-- The selection the truthiness guards actually enforce: an empty-string
country or a zero year behaves as unset. -/
def effCountry : Option String → Option String
  | some c => if c = "" then none else some c
  | none => none

/-- The year selection the truthiness guard actually enforces. -/
def effYear : Option Int → Option Int
  | some y => if y = 0 then none else some y
  | none => none

/-- C4 counterexample: the empty string is a value present in the `country`
column, yet selecting it filters nothing — the two non-matching rows are both
kept, while the claim demands that only the empty-country row survive. -/
theorem applyFilters_counterexample :
    ("" ∈ ([⟨"", 1, none, none⟩, ⟨"A", 1, none, none⟩] : List Row).map (·.country)) ∧
    applyFilters [⟨"", 1, none, none⟩, ⟨"A", 1, none, none⟩] (some "") none =
      [⟨"", 1, none, none⟩, ⟨"A", 1, none, none⟩] ∧
    applyFilters [⟨"", 1, none, none⟩, ⟨"A", 1, none, none⟩] (some "") none ≠
      claimedFilter [⟨"", 1, none, none⟩, ⟨"A", 1, none, none⟩] (some "") none := by
  refine ⟨by decide, by decide, by decide⟩

/-- C4 (amended): `apply_filters` equals the equality-filter of the claim
after replacing a falsy selection (empty-string country, year zero) by
"unset"; for truthy selections this is exactly the claimed behavior.  The
result is always a sublist of the input (subset with order preserved), its
size is at most the input size, and with both filters unset it is the whole
input. -/
theorem applyFilters_spec (rows : List Row) (sc : Option String)
    (sy : Option Int) :
    applyFilters rows sc sy = claimedFilter rows (effCountry sc) (effYear sy) ∧
    List.Sublist (applyFilters rows sc sy) rows ∧
    (applyFilters rows sc sy).length ≤ rows.length ∧
    applyFilters rows none none = rows := by
  have hmain :
      applyFilters rows sc sy = claimedFilter rows (effCountry sc) (effYear sy) := by
    rcases sc with _ | c <;> rcases sy with _ | y
    · simp [applyFilters, claimedFilter, effCountry, effYear]
    · by_cases hy : y = 0 <;>
        simp [applyFilters, claimedFilter, effCountry, effYear, hy]
    · by_cases hc : c = "" <;>
        simp [applyFilters, claimedFilter, effCountry, effYear, hc]
    · by_cases hc : c = "" <;> by_cases hy : y = 0 <;>
        simp [applyFilters, claimedFilter, effCountry, effYear, hc, hy,
          List.filter_filter, Bool.and_comm]
  have hsub : List.Sublist (applyFilters rows sc sy) rows := by
    rw [hmain, claimedFilter]
    exact List.filter_sublist rows
  exact ⟨hmain, hsub, hsub.length_le, by simp [applyFilters]⟩

/-- C9: a falsy selected value — the empty-string country or the year 0,
even when present in the table — is treated exactly like an unset filter, in
both the filter pipeline and the map's year guard. -/
theorem falsy_selection_is_unset (rows : List Row) (sc : Option String)
    (sy : Option Int) :
    applyFilters rows (some "") sy = applyFilters rows none sy ∧
    applyFilters rows sc (some 0) = applyFilters rows sc none ∧
    applyFilters rows (some "") (some 0) = rows ∧
    selectMapRows rows (some 0) = selectMapRows rows none := by
  refine ⟨?_, ?_, ?_, ?_⟩ <;> simp [applyFilters, selectMapRows]

/-- C6 counterexample: the year 0 is present in the table's `year` column,
yet selecting it returns the full table (the truthiness guard treats 0 as
unset), not the rows whose year equals the selection as the claim states. -/
theorem selectMapRows_counterexample :
    ((0 : Int) ∈ ([⟨"a", 0, none, none⟩, ⟨"b", 1, none, none⟩] : List Row).map (·.year)) ∧
    selectMapRows [⟨"a", 0, none, none⟩, ⟨"b", 1, none, none⟩] (some 0) =
      [⟨"a", 0, none, none⟩, ⟨"b", 1, none, none⟩] ∧
    selectMapRows [⟨"a", 0, none, none⟩, ⟨"b", 1, none, none⟩] (some 0) ≠
      ([⟨"a", 0, none, none⟩, ⟨"b", 1, none, none⟩] : List Row).filter
        (fun r => r.year == 0) := by
  refine ⟨by decide, by decide, by decide⟩

/-- C6 (amended): the map selector returns the rows whose year equals the
selection when a non-zero year is set, and the full table when the year is
unset or 0 (falsy); the highlight step removes no rows, exactly the rows
whose country equals the country selection carry "Selected Country", and all
the other rows carry "Other Countries". -/
theorem selectMapRows_spec (rows : List Row) (sc : Option String)
    (sy : Option Int) :
    (selectMapRows rows sy =
      (match effYear sy with
       | some y => rows.filter (fun r => r.year == y)
       | none => rows)) ∧
    (addHighlight (selectMapRows rows sy) sc).map Prod.fst =
      selectMapRows rows sy ∧
    ((addHighlight (selectMapRows rows sy) sc).filter
        (fun p => p.2 == "Selected Country")).map Prod.fst =
      (selectMapRows rows sy).filter (fun r => some r.country == sc) ∧
    ((addHighlight (selectMapRows rows sy) sc).filter
        (fun p => p.2 == "Other Countries")).map Prod.fst =
      (selectMapRows rows sy).filter (fun r => !(some r.country == sc)) := by
  refine ⟨?_, ?_, ?_, ?_⟩
  · rcases sy with _ | y
    · simp [selectMapRows, effYear]
    · by_cases hy : y = 0 <;> simp [selectMapRows, effYear, hy]
  · simp only [addHighlight, List.map_map]
    have h : (Prod.fst ∘ fun r : Row =>
        (r, if some r.country = sc then "Selected Country"
            else "Other Countries")) = id := rfl
    rw [h, List.map_id]
  · generalize selectMapRows rows sy = m
    induction m with
    | nil => rfl
    | cons r rs ih =>
      by_cases h : some r.country = sc <;>
        simp [addHighlight, List.filter_cons, h] at ih ⊢ <;>
        exact ih
  · generalize selectMapRows rows sy = m
    induction m with
    | nil => rfl
    | cons r rs ih =>
      by_cases h : some r.country = sc <;>
        simp [addHighlight, List.filter_cons, h] at ih ⊢ <;>
        exact ih

/-- Python whitespace (ASCII range) used by `str.strip`: space, tab, newline,
vertical tab, form feed, carriage return, as Unicode code points. -/
def isPySpace (c : Nat) : Bool :=
  c = 32 || c = 9 || c = 10 || c = 11 || c = 12 || c = 13

/-- Python `str.strip()` over a column name given as its list of code points: drop
leading and trailing whitespace. -/
def pyStrip (s : List Nat) : List Nat :=
  (s.dropWhile isPySpace).rdropWhile isPySpace

/-- Python `str.replace(" ", "_")`: the pattern is the single character of code 32,
so the call maps code 32 to code 95 pointwise. -/
def replaceSpace (s : List Nat) : List Nat :=
  s.map (fun c => if c = 32 then 95 else c)

/-- Python `str.lower()` on the ASCII letters: map codes 65-90 to codes 97-122
(other code points are left unchanged in this model). -/
def pyLower (s : List Nat) : List Nat :=
  s.map (fun c => if 65 ≤ c ∧ c ≤ 90 then c + 32 else c)

/-- Source `src/tem.py`, line 45:
`df.columns = df.columns.str.strip().str.replace(" ", "_").str.lower()`,
acting on one column name. -/
def normalizeName (s : List Nat) : List Nat :=
  pyLower (replaceSpace (pyStrip s))

/-- Normalization of line 45 applied to the whole header. -/
def normalizeColumns (names : List (List Nat)) : List (List Nat) :=
  names.map normalizeName

/-- The pointwise effect of `replace` followed by `lower` on one code point. -/
def normChar (c : Nat) : Nat :=
  if (if c = 32 then 95 else c) = 32 then 95
  else if 65 ≤ (if c = 32 then 95 else c) ∧ (if c = 32 then 95 else c) ≤ 90 then
    (if c = 32 then 95 else c) + 32
  else (if c = 32 then 95 else c)

lemma normChar_eq (c : Nat) :
    normChar c =
      (fun d => if 65 ≤ d ∧ d ≤ 90 then d + 32 else d)
        ((fun d => if d = 32 then 95 else d) c) := by
  by_cases h : c = 32 <;> simp [normChar, h]

lemma pyLower_replaceSpace (s : List Nat) :
    pyLower (replaceSpace s) = s.map normChar := by
  simp only [pyLower, replaceSpace, List.map_map]
  exact List.map_congr_left (fun c _ => (normChar_eq c).symm)

lemma normChar_not_space (c : Nat) (h : isPySpace c = false) :
    isPySpace (normChar c) = false := by
  simp only [isPySpace, normChar] at h ⊢
  split_ifs <;> simp_all
  all_goals omega

lemma normChar_ne_32 (c : Nat) : normChar c ≠ 32 := by
  simp only [normChar]
  split_ifs <;> omega

lemma normChar_not_upper (c : Nat) : ¬ (65 ≤ normChar c ∧ normChar c ≤ 90) := by
  simp only [normChar]
  split_ifs <;> omega

lemma dropWhile_map_normChar (t : List Nat)
    (h : t.dropWhile isPySpace = t) :
    (t.map normChar).dropWhile isPySpace = t.map normChar := by
  rw [List.dropWhile_eq_self_iff] at h ⊢
  intro hl
  have hl' : 0 < t.length := by simpa using hl
  have hget : (t.map normChar).get ⟨0, hl⟩ = normChar (t.get ⟨0, hl'⟩) := by
    simp
  rw [hget]
  have := h hl'
  intro hcon
  exact absurd (normChar_not_space _ (by simpa using this)) (by simpa using hcon)

lemma rdropWhile_map_normChar (t : List Nat)
    (h : t.rdropWhile isPySpace = t) :
    (t.map normChar).rdropWhile isPySpace = t.map normChar := by
  rw [List.rdropWhile_eq_self_iff] at h ⊢
  intro hl
  have hl' : t ≠ [] := by simpa using hl
  rw [List.getLast_map _ _ hl]
  have := h hl'
  intro hcon
  exact absurd (normChar_not_space _ (by simpa using this)) (by simpa using hcon)

lemma pyStrip_front_fixed (s : List Nat) :
    (pyStrip s).dropWhile isPySpace = pyStrip s := by
  have hxfix : (s.dropWhile isPySpace).dropWhile isPySpace =
      s.dropWhile isPySpace := List.dropWhile_idempotent isPySpace s
  have hpre : List.IsPrefix
      ((s.dropWhile isPySpace).rdropWhile isPySpace) (s.dropWhile isPySpace) :=
    List.rdropWhile_prefix isPySpace _
  rw [pyStrip]
  rw [List.dropWhile_eq_self_iff] at hxfix ⊢
  intro hl
  have hl' : 0 < (s.dropWhile isPySpace).length := lt_of_lt_of_le hl hpre.length_le
  have hget : ((s.dropWhile isPySpace).rdropWhile isPySpace).get ⟨0, hl⟩ =
      (s.dropWhile isPySpace).get ⟨0, hl'⟩ := by
    simpa using hpre.getElem hl
  rw [hget]
  exact hxfix hl'

lemma pyStrip_back_fixed (s : List Nat) :
    (pyStrip s).rdropWhile isPySpace = pyStrip s :=
  List.rdropWhile_idempotent isPySpace (s.dropWhile isPySpace)

lemma replaceSpace_fixed (t : List Nat) (h : ∀ c ∈ t, c ≠ 32) :
    replaceSpace t = t := by
  have hmap : t.map (fun c => if c = 32 then 95 else c) = t.map id :=
    List.map_congr_left (fun c hc => by simp [h c hc])
  simpa [replaceSpace] using hmap

lemma pyLower_fixed (t : List Nat) (h : ∀ c ∈ t, ¬ (65 ≤ c ∧ c ≤ 90)) :
    pyLower t = t := by
  have hmap : t.map (fun c => if 65 ≤ c ∧ c ≤ 90 then c + 32 else c) = t.map id :=
    List.map_congr_left (fun c hc => by simp [h c hc])
  simpa [pyLower] using hmap

lemma normalizeName_idem (s : List Nat) :
    normalizeName (normalizeName s) = normalizeName s := by
  have hform : normalizeName s = (pyStrip s).map normChar := by
    simp only [normalizeName, pyLower_replaceSpace]
  have hstrip : pyStrip (normalizeName s) = normalizeName s := by
    rw [hform, pyStrip]
    rw [dropWhile_map_normChar _ (pyStrip_front_fixed s)]
    exact rdropWhile_map_normChar _ (pyStrip_back_fixed s)
  have hno32 : ∀ c ∈ normalizeName s, c ≠ 32 := by
    rw [hform]
    intro c hc
    obtain ⟨d, _, rfl⟩ := List.mem_map.mp hc
    exact normChar_ne_32 d
  have hnoup : ∀ c ∈ replaceSpace (normalizeName s), ¬ (65 ≤ c ∧ c ≤ 90) := by
    rw [replaceSpace_fixed _ hno32, hform]
    intro c hc
    obtain ⟨d, _, rfl⟩ := List.mem_map.mp hc
    exact normChar_not_upper d
  calc normalizeName (normalizeName s)
      = pyLower (replaceSpace (normalizeName s)) := by
        rw [normalizeName, hstrip]
    _ = pyLower (normalizeName s) := by rw [replaceSpace_fixed _ hno32]
    _ = normalizeName s := pyLower_fixed _ (by
        rw [← replaceSpace_fixed _ hno32]
        exact hnoup)

/-- C7: column-name normalization (strip, space to underscore, lowercase) is
idempotent — normalizing an already-normalized header produces the same
header. -/
theorem normalizeColumns_idem (names : List (List Nat)) :
    normalizeColumns (normalizeColumns names) = normalizeColumns names := by
  simp only [normalizeColumns, List.map_map]
  exact List.map_congr_left (fun s _ => normalizeName_idem s)

/-- The uploaded table after line 45: the normalized header together with the
typed rows.  A pandas column access `df[c]` succeeds exactly when
`c ∈ cols`, and raises `KeyError(c)` otherwise. -/
structure RawTable where
  cols : List String
  rows : List Row

/-- How Part 1 of the script can end, distinguishing whether an uncaught
`KeyError` is raised before or after the filtering of lines 56-60. -/
inductive Part1Outcome where
  | keyErrorBeforeFiltering (col : String)
  | keyErrorAfterFiltering (col : String)
  | outcome (r : RecResult)
deriving DecidableEq, Repr

/-- Source `src/tem.py`, lines 49-81 in source order: `df['country']` for the country
selectbox (line 49), `df['year']` for the year selectbox (line 52), the two
truthiness-guarded filters (lines 56-60), the emptiness test (line 64), and
only then `filtered_df['temperature_anomaly']` and `filtered_df['average_co2']`
(lines 65-66).  Each column access raises `KeyError` when the column is
absent, aborting the script there. -/
def part1 (t : RawTable) (sc : Option String) (sy : Option Int) :
    Part1Outcome :=
  if "country" ∉ t.cols then Part1Outcome.keyErrorBeforeFiltering "country"
  else if "year" ∉ t.cols then Part1Outcome.keyErrorBeforeFiltering "year"
  else
    let filtered := applyFilters t.rows sc sy
    if filtered.isEmpty then Part1Outcome.outcome RecResult.noData
    else if "temperature_anomaly" ∉ t.cols then
      Part1Outcome.keyErrorAfterFiltering "temperature_anomaly"
    else if "average_co2" ∉ t.cols then
      Part1Outcome.keyErrorAfterFiltering "average_co2"
    else Part1Outcome.outcome (recommend filtered)

/-- C5 counterexample: a table whose header lacks `temperature_anomaly` and
`average_co2` (two of the required columns) is not rejected before filtering —
with a non-empty selection the error surfaces only after the filter and the
emptiness test, and with an empty selection Part 1 reports "no data" and no
error at all. -/
theorem part1_counterexample :
    part1 ⟨["country", "year"], [⟨"a", 1, some 1, some 2⟩]⟩ none none =
      Part1Outcome.keyErrorAfterFiltering "temperature_anomaly" ∧
    part1 ⟨["country", "year"], [⟨"a", 1, some 1, some 2⟩]⟩ (some "b") none =
      Part1Outcome.outcome RecResult.noData := by
  refine ⟨by decide, by decide⟩

/-- C5 (amended): only a missing `country` or `year` column aborts before
filtering, with a `KeyError` naming the first missing of the two; a missing
`temperature_anomaly` or `average_co2` column does not prevent filtering —
when the filtered table is non-empty the access fails after filtering,
naming the first missing of those two, and when it is empty no error is
raised in this section at all. -/
theorem part1_column_errors (t : RawTable) (sc : Option String)
    (sy : Option Int) :
    ("country" ∉ t.cols → part1 t sc sy = Part1Outcome.keyErrorBeforeFiltering "country") ∧
    ("country" ∈ t.cols → "year" ∉ t.cols →
      part1 t sc sy = Part1Outcome.keyErrorBeforeFiltering "year") ∧
    ("country" ∈ t.cols → "year" ∈ t.cols → applyFilters t.rows sc sy = [] →
      part1 t sc sy = Part1Outcome.outcome RecResult.noData) ∧
    ("country" ∈ t.cols → "year" ∈ t.cols → applyFilters t.rows sc sy ≠ [] →
      "temperature_anomaly" ∉ t.cols →
      part1 t sc sy = Part1Outcome.keyErrorAfterFiltering "temperature_anomaly") ∧
    ("country" ∈ t.cols → "year" ∈ t.cols → applyFilters t.rows sc sy ≠ [] →
      "temperature_anomaly" ∈ t.cols → "average_co2" ∉ t.cols →
      part1 t sc sy = Part1Outcome.keyErrorAfterFiltering "average_co2") := by
  refine ⟨fun h1 => ?_, fun h1 h2 => ?_, fun h1 h2 h3 => ?_,
    fun h1 h2 h3 h4 => ?_, fun h1 h2 h3 h4 h5 => ?_⟩
  · simp [part1, h1]
  · simp [part1, h1, h2]
  · simp [part1, h1, h2, h3]
  · simp [part1, h1, h2, h4, List.isEmpty_iff, h3]
  · simp [part1, h1, h2, h4, h5, List.isEmpty_iff, h3]

/-- C5 witness: the amended theorem applied at concrete tables, one per
conjunct's scenario of interest. -/
theorem part1_column_errors_witness :
    part1 ⟨["year"], []⟩ none none =
      Part1Outcome.keyErrorBeforeFiltering "country" ∧
    part1 ⟨["country", "year"], [⟨"a", 1, some 1, some 2⟩]⟩ none none =
      Part1Outcome.keyErrorAfterFiltering "temperature_anomaly" :=
  ⟨(part1_column_errors ⟨["year"], []⟩ none none).1 (by decide),
   (part1_column_errors ⟨["country", "year"], [⟨"a", 1, some 1, some 2⟩]⟩
      none none).2.2.2.1 (by decide) (by decide) (by decide) (by decide)⟩

/-- The parameters a branch of `src/tem.py` lines 179-189 hands to the
plotting library. -/
inductive ChartSpec where
  | scatter (x y : String) (color : Option String) (title : String)
  | line (x y : String) (color : Option String) (title : String)
  | bar (x y : String) (color : Option String) (title : String)
  | pie (names values : String) (title : String)
  | histogram (x : String) (color : Option String) (title : String) (nbins : Nat)
deriving DecidableEq, Repr

/-- The `color=color if color else None` argument of lines 180-189: a `None`
or empty-string (falsy) selection passes no color. -/
def effColor : Option String → Option String
  | some c => if c = "" then none else some c
  | none => none

/-- Source `src/tem.py`, lines 179-189: the `if`/`elif` chain over the plot type,
with the f-string titles spelled out; an unknown plot type leaves `fig`
unbound (`none`). -/
def buildChart (plot_type x_axis y_axis : String) (color : Option String)
    (pie_values : String) : Option ChartSpec :=
  if plot_type = "Scatter Plot" then
    some (ChartSpec.scatter x_axis y_axis (effColor color)
      (y_axis ++ " vs " ++ x_axis))
  else if plot_type = "Line Chart" then
    some (ChartSpec.line x_axis y_axis (effColor color)
      (y_axis ++ " over " ++ x_axis))
  else if plot_type = "Bar Chart" then
    some (ChartSpec.bar x_axis y_axis (effColor color)
      (y_axis ++ " by " ++ x_axis))
  else if plot_type = "Pie Chart" then
    some (ChartSpec.pie x_axis pie_values ("Distribution of " ++ pie_values))
  else if plot_type = "Histogram" then
    some (ChartSpec.histogram x_axis (effColor color)
      ("Histogram of " ++ x_axis) 20)
  else none

/-- C8: the pie branch ignores the y selection entirely, using the values
field with the x selection as names (and passes no color); the histogram
branch ignores the y selection, and its color is optional — a `None`
selection simply passes no color while a truthy one is passed through. -/
theorem buildChart_pie_histogram (x y y' : String) (color : Option String)
    (v : String) :
    buildChart "Pie Chart" x y color v =
      some (ChartSpec.pie x v ("Distribution of " ++ v)) ∧
    buildChart "Pie Chart" x y' color v = buildChart "Pie Chart" x y color v ∧
    buildChart "Histogram" x y color v =
      some (ChartSpec.histogram x (effColor color) ("Histogram of " ++ x) 20) ∧
    buildChart "Histogram" x y' color v = buildChart "Histogram" x y color v ∧
    buildChart "Histogram" x y none v =
      some (ChartSpec.histogram x none ("Histogram of " ++ x) 20) := by
  refine ⟨rfl, rfl, rfl, rfl, rfl⟩

end TemDashboard
